import Mathlib

/-!
Verification of the format-identification-and-deobfuscation dispatcher of
`gm8exe/src/gamedata.rs` (the `find` function).

The dispatcher is embedded shallowly: the byte buffer (`io::Cursor<&mut [u8]>`)
becomes an explicit `ByteImage` (byte list plus cursor position), machine
integers become `Nat` with explicit `% 2^32` where 32-bit wraparound matters,
and fallible operations return `Except`.  The external collaborator modules
(`antidec`, `gm80`, `gm81`, `upx`, the `reader` error type and the `minio`
primitive reader) are not part of the visible source; following the spec they
are modelled as abstract interfaces (`Collaborators`) and minimal types, each
marked `Modelled from the spec:` in its doc comment.  The dispatcher itself,
including its inline header-locator loop, is translated directly from
`gamedata.rs`.
-/

namespace GM8

/-- Modelled from the spec: the failure taxonomy of `crate::reader::ReaderError`
(the `reader` module is not part of the visible source).  `UnknownFormat` means
no branch of the fixed detection order matched; `ReadBounds` stands for any
primitive read/seek past the buffer end or an I/O failure surfaced verbatim
from an external collaborator. -/
inductive ReaderError where
  | UnknownFormat : ReaderError
  | ReadBounds : ReaderError
deriving DecidableEq

/-- Modelled from the spec: `crate::GameVersion`, a closed tag with exactly two
values, the two supported release families (the crate root is not part of the
visible source). -/
inductive GameVersion where
  | GameMaker8_0 : GameVersion
  | GameMaker8_1 : GameVersion
deriving DecidableEq

/-- The mutable, seekable, bounds-checked byte buffer: `io::Cursor<&mut [u8]>`
in the source.  `data` is the byte sequence (each entry a byte value), `pos`
the current cursor position. -/
structure ByteImage where
  data : List Nat
  pos : Nat
deriving DecidableEq

/-- The modulus of Rust `u32` arithmetic, `2^32`. -/
def U32 : Nat := 4294967296

/-- The little-endian 32-bit word starting at index `i` of `d` (bytes past the
end read as 0; callers guard with `i + 4 ≤ d.length`). -/
def u32at (d : List Nat) (i : Nat) : Nat :=
  d.getD i 0 + d.getD (i + 1) 0 * 256 + d.getD (i + 2) 0 * 65536 +
    d.getD (i + 3) 0 * 16777216

/-- Modelled from the spec: the primitive reader `read_u32_le` of the external
`minio` crate: read a little-endian 32-bit word at the cursor, advancing it by
4; fail with a read/bounds error if fewer than 4 bytes remain.  (Partial
consumption on a failed read is not modelled: the cursor is left where the
failing read began.) -/
def readU32le (im : ByteImage) : Except ReaderError (Nat × ByteImage) :=
  if im.pos + 4 ≤ im.data.length then
    .ok (u32at im.data im.pos, ⟨im.data, im.pos + 4⟩)
  else .error .ReadBounds

/-- Modelled from the spec: the five-field settings record produced by an
obfuscation probe of the `antidec` module (not part of the visible source).
Field names are those used by `gamedata.rs` itself; all fields are `u32` in
the source, modelled as `Nat`. -/
structure AntidecSettings where
  exe_load_offset : Nat
  header_start : Nat
  xor_mask : Nat
  add_mask : Nat
  sub_mask : Nat
deriving DecidableEq

/-- Modelled from the spec: the mode selector of the Secondary XOR Pass
(`gm81::XorMethod`); the dispatcher only ever uses `Normal`. -/
inductive XorMethod where
  | Normal : XorMethod
deriving DecidableEq

/-- The masked-combine computation of the header locator,
`(w1 & 0xFF00FF00) + (w2 & 0x00FF00FF)` on `u32` values: the addition wraps at
`2^32` (Rust release semantics), hence the explicit modulus. -/
def maskedCombine (w1 w2 : Nat) : Nat :=
  ((w1 &&& 0xFF00FF00) + (w2 &&& 0x00FF00FF)) % U32

/-- The inline header-locator loop of `find` (`gamedata.rs` lines 151-165 and
72-86): starting at offset `i`, seek to `i`, read two little-endian words, and
succeed when their masked combination equals `0xF7140067`; otherwise increment
`i` and stop with no result once `i + 8` reaches or exceeds the buffer length.
Returns the outcome together with the final cursor position (`i + 8` after a
completed probe at `i`).  The source's loop counter is a `u32`; for any buffer
short enough that the counter cannot wrap (length at most `2^32`) this `Nat`
transcription coincides with the source. -/
def locate (d : List Nat) (i : Nat) : Except ReaderError (Option Nat) × Nat :=
  match readU32le ⟨d, i⟩ with
  | .error e => (.error e, i)
  | .ok (w1, im1) =>
    match readU32le im1 with
    | .error e => (.error e, im1.pos)
    | .ok (w2, im2) =>
      if maskedCombine w1 w2 = 0xF7140067 then (.ok (some i), im2.pos)
      else if h : i + 1 + 8 ≥ d.length then (.ok none, im2.pos)
      else locate d (i + 1)
termination_by d.length - i
decreasing_by
  simp [readU32le] at *
  omega

/-- Modelled from the spec: the external collaborator interfaces consumed by
the dispatcher (their internals are out of scope).  Probes and standard
detectors are non-mutating signature checks, so they return only an optional
settings record / a boolean together with the cursor position they leave;
`decrypt` and `gm81decrypt` mutate the image in place and return the new
image; `unpack` returns the decompressed byte sequence together with the
cursor position it leaves on the original image.  Per the spec the diagnostic
sink cannot influence any collaborator result, so the interfaces do not take
it. -/
structure Collaborators where
  unpack : ByteImage → Nat → Nat → Except ReaderError (List Nat × Nat)
  check80 : ByteImage → Except ReaderError (Option AntidecSettings × Nat)
  check81 : ByteImage → Except ReaderError (Option AntidecSettings × Nat)
  decrypt : ByteImage → AntidecSettings → Except ReaderError (Bool × ByteImage)
  gm81decrypt : ByteImage → XorMethod → Except ReaderError ByteImage
  gm80check : ByteImage → Except ReaderError (Bool × Nat)
  gm81check : ByteImage → Except ReaderError (Bool × Nat)
  gm81checkLazy : ByteImage → Except ReaderError (Bool × Nat)

/-- The outcome of a dispatch: classification result, final state of the
caller's buffer, and the diagnostic messages emitted by the dispatcher. -/
abbrev DispatchOut := Except ReaderError GameVersion × ByteImage × List String

/-- Modelled from the spec: the `log!` macro; the message is delivered only
when a diagnostic sink is present (`l = true`), absence is a no-op.  The
numeric interpolations of the source messages are elided: no claim concerns
message content. -/
def emit (l : Bool) (msg : String) (log : List String) : List String :=
  if l then log ++ [msg] else log

def msgUnpackOk : String := "Successfully unpacked UPX"

def msgFoundA80 : String := "Found antidec2 loading sequence, decrypting"

def msgFoundA80vals : String := "antidec2 settings values"

def msgFoundA81 : String := "Found antidec81 loading sequence, decrypting"

def msgFoundA81vals : String := "antidec81 settings values"

def msgNoMagic : String := "Did not find GM81 magic value before EOF, so giving up"

/-- The Family A (antidec2) branch of the dispatcher (`gamedata.rs` lines
48-55 and 125-132): call `antidec::decrypt` on the image; on `true`, seek 12
bytes forward from wherever decryption left the cursor and return the first
version tag; on `false`, return `UnknownFormat`.  (On a collaborator error the
partially mutated state is not modelled; the input image is returned.) -/
def familyABranch (env : Collaborators) (exe : ByteImage) (s : AntidecSettings)
    (log : List String) : DispatchOut :=
  match env.decrypt exe s with
  | .error e => (.error e, exe, log)
  | .ok (true, d1) => (.ok .GameMaker8_0, ⟨d1.data, d1.pos + 12⟩, log)
  | .ok (false, d1) => (.error .UnknownFormat, d1, log)

/-- The Family B (antidec81) branch of the dispatcher (`gamedata.rs` lines
150-181 and 70-102): call `antidec::decrypt`; on `true`, run the header
locator from `header_start + exe_load_offset` (a `u32` addition, hence the
modulus); on a located match run the Secondary XOR Pass in `Normal` mode and
seek 20 bytes forward, returning the second version tag; on an exhausted scan
log and return `UnknownFormat`; on `false` return `UnknownFormat`. -/
def familyBBranch (env : Collaborators) (l : Bool) (exe : ByteImage)
    (s : AntidecSettings) (log : List String) : DispatchOut :=
  match env.decrypt exe s with
  | .error e => (.error e, exe, log)
  | .ok (true, d1) =>
    match locate d1.data ((s.header_start + s.exe_load_offset) % U32) with
    | (.error e, p) => (.error e, ⟨d1.data, p⟩, log)
    | (.ok (some _), p) =>
      match env.gm81decrypt ⟨d1.data, p⟩ XorMethod.Normal with
      | .error e => (.error e, ⟨d1.data, p⟩, log)
      | .ok d2 => (.ok .GameMaker8_1, ⟨d2.data, d2.pos + 20⟩, log)
    | (.ok none, p) => (.error .UnknownFormat, ⟨d1.data, p⟩, emit l msgNoMagic log)
  | .ok (false, d1) => (.error .UnknownFormat, d1, log)

/-- The standard-format fall-through of the dispatcher (`gamedata.rs` lines
182-191): `gm80::check`, then `gm81::check`, then `gm81::check_lazy` (the
latter short-circuited), returning the matching version tag or
`UnknownFormat`.  `d` is the buffer data, `p` the cursor position on entry. -/
def standardBranch (env : Collaborators) (d : List Nat) (p : Nat)
    (log : List String) : DispatchOut :=
  match env.gm80check ⟨d, p⟩ with
  | .error e => (.error e, ⟨d, p⟩, log)
  | .ok (true, p1) => (.ok .GameMaker8_0, ⟨d, p1⟩, log)
  | .ok (false, p1) =>
    match env.gm81check ⟨d, p1⟩ with
    | .error e => (.error e, ⟨d, p1⟩, log)
    | .ok (true, p2) => (.ok .GameMaker8_1, ⟨d, p2⟩, log)
    | .ok (false, p2) =>
      match env.gm81checkLazy ⟨d, p2⟩ with
      | .error e => (.error e, ⟨d, p2⟩, log)
      | .ok (true, p3) => (.ok .GameMaker8_1, ⟨d, p3⟩, log)
      | .ok (false, p3) => (.error .UnknownFormat, ⟨d, p3⟩, log)

/-- The dispatcher `find` of `gamedata.rs`: `env` supplies the external
collaborators, `l` records whether a diagnostic sink is present, `exe` is the
caller's buffer and `upxData` the optional compression hint
`(max_size, disk_offset)`.  With a hint, the image is unpacked and the two
obfuscation probes run against the unpacked buffer while decryption and
everything after it operate on the original `exe` buffer, and no standard
detector is consulted; without a hint, probes, branches and the standard
detectors all run against `exe`. -/
def find (env : Collaborators) (l : Bool) (exe : ByteImage)
    (upxData : Option (Nat × Nat)) : DispatchOut :=
  match upxData with
  | some (maxSize, diskOffset) =>
    match env.unpack exe maxSize diskOffset with
    | .error e => (.error e, exe, [])
    | .ok (u, exePos) =>
      let log0 := emit l msgUnpackOk []
      let exe1 : ByteImage := ⟨exe.data, exePos⟩
      match env.check80 ⟨u, 0⟩ with
      | .error e => (.error e, exe1, log0)
      | .ok (some s, _) =>
        familyABranch env exe1 s (emit l msgFoundA80vals (emit l msgFoundA80 log0))
      | .ok (none, uPos) =>
        match env.check81 ⟨u, uPos⟩ with
        | .error e => (.error e, exe1, log0)
        | .ok (some s, _) =>
          familyBBranch env l exe1 s (emit l msgFoundA81vals (emit l msgFoundA81 log0))
        | .ok (none, _) => (.error .UnknownFormat, exe1, log0)
  | none =>
    match env.check80 exe with
    | .error e => (.error e, exe, [])
    | .ok (some s, p1) =>
      familyABranch env ⟨exe.data, p1⟩ s (emit l msgFoundA80vals (emit l msgFoundA80 []))
    | .ok (none, p1) =>
      match env.check81 ⟨exe.data, p1⟩ with
      | .error e => (.error e, ⟨exe.data, p1⟩, [])
      | .ok (some s, p2) =>
        familyBBranch env l ⟨exe.data, p2⟩ s (emit l msgFoundA81vals (emit l msgFoundA81 []))
      | .ok (none, p2) => standardBranch env exe.data p2 []


deriving instance DecidableEq for Except

theorem locate_oob (d : List Nat) (i : Nat) (h : d.length < i + 8) :
    (locate d i).1 = Except.error ReaderError.ReadBounds := by
  rw [locate]
  by_cases h4 : i + 4 ≤ d.length
  · simp [readU32le, h4, show ¬(i + 4 + 4 ≤ d.length) by omega]
  · simp [readU32le, h4]

theorem locate_break (d : List Nat) (i : Nat) (hin : i + 8 ≤ d.length)
    (hno : maskedCombine (u32at d i) (u32at d (i + 4)) ≠ 0xF7140067)
    (hend : i + 1 + 8 ≥ d.length) :
    locate d i = (Except.ok none, i + 8) := by
  rw [locate]
  simp [readU32le, show i + 4 ≤ d.length by omega, show i + 4 + 4 ≤ d.length by omega,
    hno, hend]

theorem locate_found (d : List Nat) (start f : Nat)
    (hge : start ≤ f) (hbound : f + 8 ≤ d.length)
    (hedge : f = start ∨ f + 8 < d.length)
    (hmagic : maskedCombine (u32at d f) (u32at d (f + 4)) = 0xF7140067)
    (hmin : ∀ j, start ≤ j → j < f →
      maskedCombine (u32at d j) (u32at d (j + 4)) ≠ 0xF7140067) :
    locate d start = (Except.ok (some f), f + 8) := by
  obtain ⟨n, hn⟩ : ∃ n, f - start = n := ⟨_, rfl⟩
  induction n generalizing start with
  | zero =>
    have hfs : f = start := by omega
    subst hfs
    rw [locate]
    simp [readU32le, show f + 4 ≤ d.length by omega, show f + 4 + 4 ≤ d.length by omega,
      hmagic]
  | succ n ih =>
    have hlt : start < f := by omega
    rw [locate]
    have hs8 : start + 8 ≤ d.length := by omega
    have hnom := hmin start le_rfl hlt
    have hnobreak : ¬ (start + 1 + 8 ≥ d.length) := by
      rcases hedge with he | he <;> omega
    simp only [readU32le, if_pos (show start + 4 ≤ d.length by omega)]
    simp only [if_pos (show start + 4 + 4 ≤ d.length by omega)]
    simp only [hnom, if_neg, dif_neg hnobreak]
    · refine ih (start + 1) (by omega) ?_ ?_ (by omega)
      · rcases hedge with he | he
        · omega
        · exact Or.inr he
      · intro j hj hjf
        exact hmin j (by omega) hjf


theorem familyABranch_resultEq (env : Collaborators) (exe : ByteImage)
    (s : AntidecSettings) (log log' : List String) :
    (familyABranch env exe s log).1 = (familyABranch env exe s log').1 ∧
    (familyABranch env exe s log).2.1 = (familyABranch env exe s log').2.1 := by
  unfold familyABranch
  cases h : env.decrypt exe s with
  | error e => simp
  | ok v =>
    obtain ⟨b, d⟩ := v
    cases b <;> simp

theorem familyBBranch_resultEq (env : Collaborators) (l l' : Bool) (exe : ByteImage)
    (s : AntidecSettings) (log log' : List String) :
    (familyBBranch env l exe s log).1 = (familyBBranch env l' exe s log').1 ∧
    (familyBBranch env l exe s log).2.1 = (familyBBranch env l' exe s log').2.1 := by
  unfold familyBBranch
  cases h : env.decrypt exe s with
  | error e => simp
  | ok v =>
    obtain ⟨b, d1⟩ := v
    cases b
    · simp
    · rcases hl : locate d1.data ((s.header_start + s.exe_load_offset) % U32) with ⟨res, p⟩
      cases res with
      | error e => simp [hl]
      | ok o =>
        cases o with
        | none => simp [hl]
        | some f =>
          cases hg : env.gm81decrypt ⟨d1.data, p⟩ XorMethod.Normal <;> simp [hl, hg]

/-- Claim C1: the dispatcher evaluates detection in the fixed order Family A
probe, Family B probe, standard detectors, and the first matching probe
commits the dispatch.  Whenever `antidec::check80` returns settings, the
result of `find` is the result of the Family A branch alone (so it cannot
come from the Family B branch or any standard detector, whatever those would
return); if the committed Decrypt call returns `false` the dispatcher returns
`UnknownFormat` without consulting any standard detector (the environment,
including all three detectors, is universally quantified); and only when the
Family A probe declines is the Family B probe consulted, whose match commits
to the Family B branch alone. -/
theorem claim1_family_a_commits (env : Collaborators) (l : Bool) (exe : ByteImage) :
    (∀ (s : AntidecSettings) (p1 : Nat), env.check80 exe = .ok (some s, p1) →
      ((find env l exe none).1 = (familyABranch env ⟨exe.data, p1⟩ s []).1 ∧
       ∀ d1 : ByteImage, env.decrypt ⟨exe.data, p1⟩ s = .ok (false, d1) →
         (find env l exe none).1 = .error ReaderError.UnknownFormat)) ∧
    (∀ (p1 : Nat) (s : AntidecSettings) (p2 : Nat),
      env.check80 exe = .ok (none, p1) →
      env.check81 ⟨exe.data, p1⟩ = .ok (some s, p2) →
      (find env l exe none).1 = (familyBBranch env l ⟨exe.data, p2⟩ s []).1) := by
  constructor
  · intro s p1 h80
    have hfind : find env l exe none =
        familyABranch env ⟨exe.data, p1⟩ s (emit l msgFoundA80vals (emit l msgFoundA80 [])) := by
      simp [find, h80]
    constructor
    · rw [hfind]
      exact (familyABranch_resultEq env ⟨exe.data, p1⟩ s _ []).1
    · intro d1 hdec
      rw [hfind]
      simp [familyABranch, hdec]
  · intro p1 s p2 h80 h81
    have hfind : find env l exe none =
        familyBBranch env l ⟨exe.data, p2⟩ s (emit l msgFoundA81vals (emit l msgFoundA81 [])) := by
      simp [find, h80, h81]
    rw [hfind]
    exact (familyBBranch_resultEq env l l ⟨exe.data, p2⟩ s _ []).1

/-- A concrete settings record used by witnesses (`header_start = 256`,
`exe_load_offset = 16`). -/
def settingsW : AntidecSettings := ⟨16, 256, 1, 2, 3⟩

def envC1 : Collaborators :=
  ⟨fun _ _ _ => .error .ReadBounds,
   fun im => .ok (some settingsW, im.pos),
   fun im => .ok (none, im.pos),
   fun im _ => .ok (false, im),
   fun im _ => .ok im,
   fun im => .ok (true, im.pos),
   fun im => .ok (true, im.pos),
   fun im => .ok (true, im.pos)⟩

theorem claim1_witness :
    (find envC1 false ⟨[1, 2, 3], 0⟩ none).1 = .error ReaderError.UnknownFormat :=
  ((claim1_family_a_commits envC1 false ⟨[1, 2, 3], 0⟩).1 settingsW 0 rfl).2 ⟨[1, 2, 3], 0⟩ rfl

/-- Claim C4: on a Family A match whose Decrypt call succeeds, `find` returns
`GameMaker8_0` and leaves the cursor at `header_start + 12`.  The hypothesis
`hpos` is the contract of the external `antidec::decrypt` (not part of the
visible source), modelled from the spec: on success it leaves the cursor at
`header_start`, which the dispatcher then advances by 12. -/
theorem claim4_family_a_result (env : Collaborators) (l : Bool) (exe : ByteImage)
    (s : AntidecSettings) (p1 : Nat) (d1 : ByteImage)
    (h80 : env.check80 exe = .ok (some s, p1))
    (hdec : env.decrypt ⟨exe.data, p1⟩ s = .ok (true, d1))
    (hpos : d1.pos = s.header_start) :
    (find env l exe none).1 = .ok GameVersion.GameMaker8_0 ∧
    (find env l exe none).2.1 = ⟨d1.data, s.header_start + 12⟩ := by
  simp [find, h80, familyABranch, hdec, hpos]

def envC4 : Collaborators :=
  ⟨fun _ _ _ => .error .ReadBounds,
   fun im => .ok (some settingsW, im.pos),
   fun im => .ok (none, im.pos),
   fun im s => .ok (true, ⟨im.data, s.header_start⟩),
   fun im _ => .ok im,
   fun im => .ok (false, im.pos),
   fun im => .ok (false, im.pos),
   fun im => .ok (false, im.pos)⟩

theorem claim4_witness :
    (find envC4 false ⟨[5, 6], 3⟩ none).1 = .ok GameVersion.GameMaker8_0 ∧
    (find envC4 false ⟨[5, 6], 3⟩ none).2.1 = ⟨[5, 6], 268⟩ :=
  claim4_family_a_result envC4 false ⟨[5, 6], 3⟩ settingsW 3 ⟨[5, 6], 256⟩ rfl rfl rfl

/-- Claim C7 counterexample: the claim presupposes a pair of 32-bit words for
which the masked addition overflows 32 bits; no such pair exists, because the
two masks `0xFF00FF00` and `0x00FF00FF` are complementary, so the sum is at
most `0xFFFFFFFF` and never reaches `U32 = 2^32`. -/
theorem claim7_counterexample :
    ¬ ∃ w1 w2 : Nat, w1 < U32 ∧ w2 < U32 ∧
      U32 ≤ (w1 &&& 0xFF00FF00) + (w2 &&& 0x00FF00FF) := by
  rintro ⟨w1, w2, -, -, hge⟩
  have h1 : w1 &&& 0xFF00FF00 ≤ 0xFF00FF00 := Nat.and_le_right
  have h2 : w2 &&& 0x00FF00FF ≤ 0x00FF00FF := Nat.and_le_right
  simp only [U32] at hge
  omega

/-- Claim C7 amended: the masked combine is computed with 32-bit wraparound
(`maskedCombine` carries the explicit `% 2^32` of `u32` addition), but the
wraparound is vacuous: for every pair of words the masked sum is below `2^32`,
so the truncated sum, the promoted sum, and the comparison against
`0xF7140067` all coincide. -/
theorem claim7_amended (w1 w2 : Nat) :
    maskedCombine w1 w2 = (w1 &&& 0xFF00FF00) + (w2 &&& 0x00FF00FF) ∧
    maskedCombine w1 w2 < U32 ∧
    (maskedCombine w1 w2 = 0xF7140067 ↔
      (w1 &&& 0xFF00FF00) + (w2 &&& 0x00FF00FF) = 0xF7140067) := by
  have h1 : w1 &&& 0xFF00FF00 ≤ 0xFF00FF00 := Nat.and_le_right
  have h2 : w2 &&& 0x00FF00FF ≤ 0x00FF00FF := Nat.and_le_right
  have hlt : (w1 &&& 0xFF00FF00) + (w2 &&& 0x00FF00FF) < U32 := by
    simp only [U32]
    omega
  have heq : maskedCombine w1 w2 = (w1 &&& 0xFF00FF00) + (w2 &&& 0x00FF00FF) := by
    unfold maskedCombine
    exact Nat.mod_eq_of_lt hlt
  exact ⟨heq, heq ▸ hlt, by rw [heq]⟩

/-- Claim C5: on a Family B match whose Decrypt call succeeds, with `f` the
first offset at or after `header_start + exe_load_offset` whose two masked
words combine to the magic value (readable without the scan breaking first,
i.e. `f` is the start offset itself or satisfies `f + 8 <` buffer length),
`find` runs the Secondary XOR Pass in `Normal` mode and returns
`GameMaker8_1` with the cursor at `f + 20`.  `hpos` is the spec-modelled
contract of the external `gm81::decrypt`: it leaves the cursor at the located
header offset, which the dispatcher advances by 20. -/
theorem claim5_family_b_result (env : Collaborators) (l : Bool) (exe : ByteImage)
    (s : AntidecSettings) (p1 p2 : Nat) (d1 : ByteImage) (f : Nat) (d2 : ByteImage)
    (h80 : env.check80 exe = .ok (none, p1))
    (h81 : env.check81 ⟨exe.data, p1⟩ = .ok (some s, p2))
    (hdec : env.decrypt ⟨exe.data, p2⟩ s = .ok (true, d1))
    (hu32 : s.header_start + s.exe_load_offset < U32)
    (hge : s.header_start + s.exe_load_offset ≤ f)
    (hbound : f + 8 ≤ d1.data.length)
    (hedge : f = s.header_start + s.exe_load_offset ∨ f + 8 < d1.data.length)
    (hmagic : maskedCombine (u32at d1.data f) (u32at d1.data (f + 4)) = 0xF7140067)
    (hmin : ∀ j, s.header_start + s.exe_load_offset ≤ j → j < f →
      maskedCombine (u32at d1.data j) (u32at d1.data (j + 4)) ≠ 0xF7140067)
    (hxor : env.gm81decrypt ⟨d1.data, f + 8⟩ XorMethod.Normal = .ok d2)
    (hpos : d2.pos = f) :
    (find env l exe none).1 = .ok GameVersion.GameMaker8_1 ∧
    (find env l exe none).2.1 = ⟨d2.data, f + 20⟩ := by
  have hloc : locate d1.data ((s.header_start + s.exe_load_offset) % U32) =
      (Except.ok (some f), f + 8) := by
    rw [Nat.mod_eq_of_lt hu32]
    exact locate_found d1.data _ f hge hbound hedge hmagic hmin
  simp [find, h80, h81, familyBBranch, hdec, hloc, hxor, hpos]

def settingsZ : AntidecSettings := ⟨0, 0, 0, 0, 0⟩

def dataMagic : List Nat := [0, 0, 0, 0xF7, 0x67, 0, 0x14, 0]

def envC5 : Collaborators :=
  ⟨fun _ _ _ => .error .ReadBounds,
   fun im => .ok (none, im.pos),
   fun im => .ok (some settingsZ, im.pos),
   fun _ _ => .ok (true, ⟨dataMagic, 0⟩),
   fun im _ => .ok ⟨im.data, 0⟩,
   fun im => .ok (false, im.pos),
   fun im => .ok (false, im.pos),
   fun im => .ok (false, im.pos)⟩

theorem claim5_witness :
    (find envC5 false ⟨[9], 0⟩ none).1 = .ok GameVersion.GameMaker8_1 ∧
    (find envC5 false ⟨[9], 0⟩ none).2.1 = ⟨dataMagic, 20⟩ :=
  claim5_family_b_result envC5 false ⟨[9], 0⟩ settingsZ 0 0 ⟨dataMagic, 0⟩ 0
    ⟨dataMagic, 0⟩ rfl rfl rfl (by decide) (by decide) (by decide) (Or.inl rfl)
    (by decide) (by intro j h1 h2; exact absurd h2 (Nat.not_lt_zero j)) rfl rfl

/-- Claim C10: on the Family B path the first locator iteration reads before
any bound check, so if the starting offset `header_start + exe_load_offset`
already satisfies `start + 8 >` buffer length, `find` propagates the
primitive-read failure (a read/bounds error) instead of returning
`UnknownFormat`. -/
theorem claim10_unguarded_first_read (env : Collaborators) (l : Bool) (exe : ByteImage)
    (s : AntidecSettings) (p1 p2 : Nat) (d1 : ByteImage)
    (h80 : env.check80 exe = .ok (none, p1))
    (h81 : env.check81 ⟨exe.data, p1⟩ = .ok (some s, p2))
    (hdec : env.decrypt ⟨exe.data, p2⟩ s = .ok (true, d1))
    (hu32 : s.header_start + s.exe_load_offset < U32)
    (hoob : d1.data.length < s.header_start + s.exe_load_offset + 8) :
    (find env l exe none).1 = .error ReaderError.ReadBounds := by
  have hloc : (locate d1.data ((s.header_start + s.exe_load_offset) % U32)).1 =
      Except.error ReaderError.ReadBounds := by
    rw [Nat.mod_eq_of_lt hu32]
    exact locate_oob d1.data _ hoob
  rcases hl : locate d1.data ((s.header_start + s.exe_load_offset) % U32) with ⟨res, p⟩
  rw [hl] at hloc
  simp only at hloc
  subst hloc
  simp [find, h80, h81, familyBBranch, hdec, hl]

def envC10 : Collaborators :=
  ⟨fun _ _ _ => .error .ReadBounds,
   fun im => .ok (none, im.pos),
   fun im => .ok (some settingsW, im.pos),
   fun _ _ => .ok (true, ⟨[1, 2, 3], 0⟩),
   fun im _ => .ok im,
   fun im => .ok (false, im.pos),
   fun im => .ok (false, im.pos),
   fun im => .ok (false, im.pos)⟩

theorem claim10_witness :
    (find envC10 false ⟨[9], 0⟩ none).1 = .error ReaderError.ReadBounds :=
  claim10_unguarded_first_read envC10 false ⟨[9], 0⟩ settingsW 0 0 ⟨[1, 2, 3], 0⟩
    rfl rfl rfl (by decide) (by decide)

def envC3 : Collaborators :=
  ⟨fun _ _ _ => .error .ReadBounds,
   fun im => .ok (none, im.pos),
   fun im => .ok (some settingsZ, im.pos),
   fun _ _ => .ok (true, ⟨dataMagic, 0⟩),
   fun im _ => .ok ⟨im.data, 0⟩,
   fun im => .ok (false, im.pos),
   fun im => .ok (false, im.pos),
   fun im => .ok (false, im.pos)⟩

/-- Claim C3 counterexample: at the very first offset the locator reads
unconditionally, with no prior bound check.  Here the scan starts at offset 0
of an 8-byte decrypted buffer, so `i + 8` already reaches the buffer length —
by the claim the locator should terminate with failure without performing
that read, making the dispatch return `UnknownFormat`; instead the code reads,
matches the magic value, and `find` succeeds with `GameMaker8_1`. -/
theorem claim3_counterexample :
    settingsZ.header_start + settingsZ.exe_load_offset + 8 = dataMagic.length ∧
    (find envC3 false ⟨[9], 0⟩ none).1 = .ok GameVersion.GameMaker8_1 := by
  constructor
  · decide
  · have hloc : locate dataMagic 0 = (Except.ok (some 0), 8) := by
      rw [locate]
      decide
    have hz : (settingsZ.header_start + settingsZ.exe_load_offset) % U32 = 0 := by decide
    simp [find, envC3, familyBBranch, hz, hloc]

/-- Claim C3 amended: the locator bound check happens after each increment,
so from the second iteration on it terminates with failure as soon as
`i + 8` reaches or exceeds the buffer length, without performing the read at
the incremented offset; the first offset is read unconditionally (claim C10).
When the scan is exhausted without a match, the dispatcher returns
`UnknownFormat`, not a read/bounds error, even though Decrypt succeeded. -/
theorem claim3_amended :
    (∀ (d : List Nat) (i : Nat), i + 8 ≤ d.length →
      maskedCombine (u32at d i) (u32at d (i + 4)) ≠ 0xF7140067 →
      i + 1 + 8 ≥ d.length → locate d i = (Except.ok none, i + 8)) ∧
    (∀ (env : Collaborators) (l : Bool) (exe : ByteImage) (s : AntidecSettings)
      (p1 p2 p : Nat) (d1 : ByteImage),
      env.check80 exe = .ok (none, p1) →
      env.check81 ⟨exe.data, p1⟩ = .ok (some s, p2) →
      env.decrypt ⟨exe.data, p2⟩ s = .ok (true, d1) →
      locate d1.data ((s.header_start + s.exe_load_offset) % U32) = (Except.ok none, p) →
      (find env l exe none).1 = .error ReaderError.UnknownFormat) := by
  constructor
  · exact locate_break
  · intro env l exe s p1 p2 p d1 h80 h81 hdec hloc
    simp [find, h80, h81, familyBBranch, hdec, hloc]

def envC3w : Collaborators :=
  ⟨fun _ _ _ => .error .ReadBounds,
   fun im => .ok (none, im.pos),
   fun im => .ok (some settingsZ, im.pos),
   fun _ _ => .ok (true, ⟨[1, 0, 0, 0, 0, 0, 0, 0, 0], 0⟩),
   fun im _ => .ok ⟨im.data, 0⟩,
   fun im => .ok (false, im.pos),
   fun im => .ok (false, im.pos),
   fun im => .ok (false, im.pos)⟩

theorem claim3_witness :
    locate [1, 0, 0, 0, 0, 0, 0, 0, 0] 0 = (Except.ok none, 8) ∧
    (find envC3w false ⟨[9], 0⟩ none).1 = .error ReaderError.UnknownFormat :=
  ⟨claim3_amended.1 [1, 0, 0, 0, 0, 0, 0, 0, 0] 0 (by decide) (by decide) (by decide),
   claim3_amended.2 envC3w false ⟨[9], 0⟩ settingsZ 0 0 8 ⟨[1, 0, 0, 0, 0, 0, 0, 0, 0], 0⟩
     rfl rfl rfl (by
       have hz : (settingsZ.header_start + settingsZ.exe_load_offset) % U32 = 0 := by decide
       rw [hz, locate]
       decide)⟩

/-- Claim C8: no rollback.  When Decrypt succeeded (and actually changed the
buffer contents) but the Family B locator then exhausts its bound, `find`
returns `UnknownFormat` while the caller buffer holds the decrypted contents,
not the pre-dispatch contents. -/
theorem claim8_no_rollback (env : Collaborators) (l : Bool) (exe : ByteImage)
    (s : AntidecSettings) (p1 p2 p : Nat) (d1 : ByteImage)
    (h80 : env.check80 exe = .ok (none, p1))
    (h81 : env.check81 ⟨exe.data, p1⟩ = .ok (some s, p2))
    (hdec : env.decrypt ⟨exe.data, p2⟩ s = .ok (true, d1))
    (hloc : locate d1.data ((s.header_start + s.exe_load_offset) % U32) = (Except.ok none, p))
    (hmut : d1.data ≠ exe.data) :
    (find env l exe none).1 = .error ReaderError.UnknownFormat ∧
    (find env l exe none).2.1.data = d1.data ∧
    (find env l exe none).2.1.data ≠ exe.data := by
  have h : find env l exe none =
      (.error .UnknownFormat, ⟨d1.data, p⟩,
        emit l msgNoMagic (emit l msgFoundA81vals (emit l msgFoundA81 []))) := by
    simp [find, h80, h81, familyBBranch, hdec, hloc]
  rw [h]
  exact ⟨rfl, rfl, hmut⟩

theorem claim8_witness :
    (find envC3w false ⟨[9], 0⟩ none).2.1.data = [1, 0, 0, 0, 0, 0, 0, 0, 0] ∧
    (find envC3w false ⟨[9], 0⟩ none).2.1.data ≠ [9] :=
  (claim8_no_rollback envC3w false ⟨[9], 0⟩ settingsZ 0 0 8 ⟨[1, 0, 0, 0, 0, 0, 0, 0, 0], 0⟩
    rfl rfl rfl (by
      have hz : (settingsZ.header_start + settingsZ.exe_load_offset) % U32 = 0 := by decide
      rw [hz, locate]
      decide) (by decide)).2

def envC2 : Collaborators :=
  ⟨fun _ _ _ => .ok ([7, 7, 7], 0),
   fun im => if im.data = [7, 7, 7] then .ok (some settingsZ, im.pos) else .ok (none, im.pos),
   fun im => .ok (none, im.pos),
   fun im _ => if im.data = [1, 2, 3] then .ok (true, ⟨[9, 9, 9], 5⟩) else .ok (false, im),
   fun im _ => .ok im,
   fun im => .ok (false, im.pos),
   fun im => .ok (false, im.pos),
   fun im => .ok (false, im.pos)⟩

/-- Claim C2 counterexample: with a compression hint, the probes run on the
unpacked buffer but Decrypt runs on the original buffer.  Here the probe
matches only the unpacked bytes `[7, 7, 7]` and Decrypt reports success only
when fed the original bytes `[1, 2, 3]`; the dispatch returns `GameMaker8_0`
(so Decrypt read the original, not the unpacked buffer) and the caller buffer
ends up mutated to `[9, 9, 9]` after the unpack, contradicting the claim that
the original is discarded and never read or mutated once unpacked. -/
theorem claim2_counterexample :
    (find envC2 false ⟨[1, 2, 3], 0⟩ (some (0, 0))).1 = .ok GameVersion.GameMaker8_0 ∧
    (find envC2 false ⟨[1, 2, 3], 0⟩ (some (0, 0))).2.1.data = [9, 9, 9] := by
  constructor <;> decide

/-- Claim C2 amended: when a compression hint is supplied and Unpack succeeds,
only the obfuscation probes inspect the unpacked buffer (`check80` and
`check81` are applied to the unpacked bytes `u`); every later stage operates
on the original buffer.  On the hinted Family A path the Decrypt Transform is
applied to `exe.data` and determines the result and final buffer state; on
the hinted Family B path the Decrypt Transform is applied to `exe.data`, the
Header Locator scans the original decrypted contents `d1.data`, the Secondary
XOR Pass consumes `⟨d1.data, f + 8⟩`, and the final cursor positioning comes
from that pass — so the original buffer is read and mutated after the unpack
while the unpacked buffer is discarded after probing. -/
theorem claim2_amended (env : Collaborators) (l : Bool) (exe : ByteImage)
    (maxSize diskOffset : Nat) (u : List Nat) (exePos : Nat) :
    (∀ (s : AntidecSettings) (uPos : Nat) (d1 : ByteImage),
      env.unpack exe maxSize diskOffset = .ok (u, exePos) →
      env.check80 ⟨u, 0⟩ = .ok (some s, uPos) →
      env.decrypt ⟨exe.data, exePos⟩ s = .ok (true, d1) →
      (find env l exe (some (maxSize, diskOffset))).1 = .ok GameVersion.GameMaker8_0 ∧
      (find env l exe (some (maxSize, diskOffset))).2.1 = ⟨d1.data, d1.pos + 12⟩) ∧
    (∀ (p1 : Nat) (s : AntidecSettings) (uPos : Nat) (d1 : ByteImage) (f : Nat)
      (d2 : ByteImage),
      env.unpack exe maxSize diskOffset = .ok (u, exePos) →
      env.check80 ⟨u, 0⟩ = .ok (none, p1) →
      env.check81 ⟨u, p1⟩ = .ok (some s, uPos) →
      env.decrypt ⟨exe.data, exePos⟩ s = .ok (true, d1) →
      locate d1.data ((s.header_start + s.exe_load_offset) % U32) =
        (Except.ok (some f), f + 8) →
      env.gm81decrypt ⟨d1.data, f + 8⟩ XorMethod.Normal = .ok d2 →
      (find env l exe (some (maxSize, diskOffset))).1 = .ok GameVersion.GameMaker8_1 ∧
      (find env l exe (some (maxSize, diskOffset))).2.1 = ⟨d2.data, d2.pos + 20⟩) := by
  constructor
  · intro s uPos d1 hu h80 hdec
    simp [find, hu, h80, familyABranch, hdec]
  · intro p1 s uPos d1 f d2 hu h80 h81 hdec hloc hxor
    simp [find, hu, h80, h81, familyBBranch, hdec, hloc, hxor]

/-- A hinted Family B environment for the C2 witness: the Family B probe
matches only the unpacked bytes `[7, 7, 7]`, Decrypt succeeds only when fed
the original bytes `[1, 2, 3]` and rewrites them to `dataMagic`, on which the
locator then finds the magic value at offset 0. -/
def envC2b : Collaborators :=
  ⟨fun _ _ _ => .ok ([7, 7, 7], 0),
   fun im => .ok (none, im.pos),
   fun im => if im.data = [7, 7, 7] then .ok (some settingsZ, im.pos) else .ok (none, im.pos),
   fun im _ => if im.data = [1, 2, 3] then .ok (true, ⟨dataMagic, 0⟩) else .ok (false, im),
   fun im _ => .ok ⟨im.data, 0⟩,
   fun im => .ok (false, im.pos),
   fun im => .ok (false, im.pos),
   fun im => .ok (false, im.pos)⟩

theorem claim2_witness :
    ((find envC2 true ⟨[1, 2, 3], 0⟩ (some (4, 5))).1 = .ok GameVersion.GameMaker8_0 ∧
     (find envC2 true ⟨[1, 2, 3], 0⟩ (some (4, 5))).2.1 = ⟨[9, 9, 9], 17⟩) ∧
    ((find envC2b true ⟨[1, 2, 3], 0⟩ (some (4, 5))).1 = .ok GameVersion.GameMaker8_1 ∧
     (find envC2b true ⟨[1, 2, 3], 0⟩ (some (4, 5))).2.1 = ⟨dataMagic, 20⟩) :=
  ⟨(claim2_amended envC2 true ⟨[1, 2, 3], 0⟩ 4 5 [7, 7, 7] 0).1 settingsZ 0 ⟨[9, 9, 9], 5⟩
     rfl rfl rfl,
   (claim2_amended envC2b true ⟨[1, 2, 3], 0⟩ 4 5 [7, 7, 7] 0).2 0 settingsZ 0
     ⟨dataMagic, 0⟩ 0 ⟨dataMagic, 0⟩ rfl rfl rfl rfl
     (by
       have hz : (settingsZ.header_start + settingsZ.exe_load_offset) % U32 = 0 := by decide
       rw [hz, locate]
       decide) rfl⟩

def envC6 : Collaborators :=
  ⟨fun _ _ _ => .ok ([7], 0),
   fun im => .ok (none, im.pos),
   fun im => .ok (none, im.pos),
   fun im _ => .ok (false, im),
   fun im _ => .ok im,
   fun im => .ok (true, im.pos),
   fun im => .ok (true, im.pos),
   fun im => .ok (true, im.pos)⟩

/-- Claim C6 counterexample: with a compression hint present and neither
obfuscation probe matching the unpacked buffer, the dispatcher returns
`UnknownFormat` immediately — it does not fall through to the standard
detectors, even though here every standard detector would match (running the
standard chain on the unpacked buffer would classify it as `GameMaker8_0`). -/
theorem claim6_counterexample :
    (find envC6 false ⟨[1], 0⟩ (some (2, 3))).1 = .error ReaderError.UnknownFormat ∧
    (standardBranch envC6 [7] 0 []).1 = .ok GameVersion.GameMaker8_0 := by
  constructor <;> decide

/-- Claim C6 amended: when a compression hint is present, Unpack succeeds and
neither obfuscation probe matches the unpacked buffer, `find` returns
`UnknownFormat` directly; the standard detectors are consulted only on the
hintless path (the environment, including all three detectors, is universally
quantified, so no detector can influence this outcome). -/
theorem claim6_amended (env : Collaborators) (l : Bool) (exe : ByteImage)
    (maxSize diskOffset : Nat) (u : List Nat) (exePos p1 p2 : Nat)
    (hu : env.unpack exe maxSize diskOffset = .ok (u, exePos))
    (h80 : env.check80 ⟨u, 0⟩ = .ok (none, p1))
    (h81 : env.check81 ⟨u, p1⟩ = .ok (none, p2)) :
    (find env l exe (some (maxSize, diskOffset))).1 = .error ReaderError.UnknownFormat := by
  simp [find, hu, h80, h81]

theorem claim6_witness :
    (find envC6 true ⟨[1], 0⟩ (some (2, 3))).1 = .error ReaderError.UnknownFormat :=
  claim6_amended envC6 true ⟨[1], 0⟩ 2 3 [7] 0 0 0 rfl rfl rfl

/-- Claim C9: the diagnostic sink never influences the outcome.  For every
collaborator environment, buffer and compression hint, running `find` with a
sink present and with a sink absent produces the same classification result
and the same final buffer contents and cursor position; only the emitted
message list differs. -/
theorem claim9_sink_no_influence (env : Collaborators) (exe : ByteImage)
    (upxData : Option (Nat × Nat)) (l1 l2 : Bool) :
    (find env l1 exe upxData).1 = (find env l2 exe upxData).1 ∧
    (find env l1 exe upxData).2.1 = (find env l2 exe upxData).2.1 := by
  cases upxData with
  | none =>
    unfold find
    cases h80 : env.check80 exe with
    | error e => simp [h80]
    | ok v =>
      obtain ⟨os, p1⟩ := v
      cases os with
      | some s =>
        simp only [h80]
        exact familyABranch_resultEq env ⟨exe.data, p1⟩ s _ _
      | none =>
        cases h81 : env.check81 ⟨exe.data, p1⟩ with
        | error e => simp [h80, h81]
        | ok v1 =>
          obtain ⟨os1, p2⟩ := v1
          cases os1 with
          | some s =>
            simp only [h80, h81]
            exact familyBBranch_resultEq env l1 l2 ⟨exe.data, p2⟩ s _ _
          | none => simp [h80, h81]
  | some hint =>
    obtain ⟨maxSize, diskOffset⟩ := hint
    unfold find
    cases hu : env.unpack exe maxSize diskOffset with
    | error e => simp [hu]
    | ok v =>
      obtain ⟨u, exePos⟩ := v
      cases h80 : env.check80 ⟨u, 0⟩ with
      | error e => simp [hu, h80]
      | ok v0 =>
        obtain ⟨os, uPos⟩ := v0
        cases os with
        | some s =>
          simp only [hu, h80]
          exact familyABranch_resultEq env ⟨exe.data, exePos⟩ s _ _
        | none =>
          cases h81 : env.check81 ⟨u, uPos⟩ with
          | error e => simp [hu, h80, h81]
          | ok v1 =>
            obtain ⟨os1, p2⟩ := v1
            cases os1 with
            | some s =>
              simp only [hu, h80, h81]
              exact familyBBranch_resultEq env l1 l2 ⟨exe.data, exePos⟩ s _ _
            | none => simp [hu, h80, h81]

end GM8
